import Mathlib

/-!
Shallow embedding of the `halt` rate-limiting library (Python) in Lean 4,
together with theorems settling the frozen specification claims.

Python `float` values are modelled as `ℚ`, Python `int` as `ℤ` (or `ℕ` where
the source only ever holds non-negative values), Python `dict[int, int]` as an
association list `List (ℤ × ℤ)`, and fallible construction as `Except String`.
Each definition is translated line by line from the corresponding source file
(named in its doc comment).
-/

/-- Python `int(x)` applied to a float: truncation toward zero. -/
def pyInt (q : ℚ) : ℤ := if 0 ≤ q then ⌊q⌋ else -⌊-q⌋

theorem pyInt_of_nonneg {q : ℚ} (h : 0 ≤ q) : pyInt q = ⌊q⌋ := if_pos h

theorem pyInt_of_neg {q : ℚ} (h : q < 0) : pyInt q = ⌈q⌉ := by
  rw [pyInt, if_neg (not_le.mpr h), Int.floor_neg, neg_neg]

/-- `halt/core/decision.py`, class `Decision`: result of a rate-limit check. -/
structure Decision where
  allowed : Bool
  limit : ℤ
  remaining : ℤ
  reset_at : ℤ
  retry_after : Option ℤ := none
  deriving DecidableEq, Repr

/-! ## Token bucket (`halt/algorithms/token_bucket.py`) -/

/-- `TokenBucket` state after `__init__`: `capacity` is kept as given and
`rate` holds `rate / window` (tokens per second). -/
structure TokenBucket where
  capacity : ℤ
  rate : ℚ
  window : ℤ
  deriving DecidableEq, Repr

/-- `TokenBucket.__init__(capacity, rate, window)`. -/
def mkTokenBucket (capacity : ℤ) (rate : ℚ) (window : ℤ) : TokenBucket :=
  ⟨capacity, rate / window, window⟩

/-- Lines 51–53 of `TokenBucket.check_and_consume`: the refilled token count
`min(self.capacity, current_tokens + (now - last_refill) * self.rate)`. -/
def TokenBucket.refill (tb : TokenBucket) (current_tokens last_refill now : ℚ) : ℚ :=
  min (tb.capacity : ℚ) (current_tokens + (now - last_refill) * tb.rate)

/-- `TokenBucket.check_and_consume(current_tokens, last_refill, cost, now)`,
returning `(Decision, new_tokens, new_last_refill)`. -/
def TokenBucket.check_and_consume (tb : TokenBucket)
    (current_tokens last_refill : ℚ) (cost : ℤ) (now : ℚ) :
    Decision × ℚ × ℚ :=
  let new_tokens := tb.refill current_tokens last_refill now
  let tokens_needed := (tb.capacity : ℚ) - new_tokens
  let reset_at := pyInt (now + tokens_needed / tb.rate)
  if (cost : ℚ) ≤ new_tokens then
    (⟨true, tb.capacity, pyInt (new_tokens - cost), reset_at, none⟩,
     new_tokens - cost, now)
  else
    let retry_after := pyInt ((cost - new_tokens) / tb.rate) + 1
    (⟨false, tb.capacity, 0, reset_at, some retry_after⟩,
     new_tokens, last_refill)

/-- `TokenBucket.initial_state(now)`. -/
def TokenBucket.initial_state (tb : TokenBucket) (now : ℚ) : ℚ × ℚ :=
  ((tb.capacity : ℚ), now)

/-! ## Fixed window (`halt/algorithms/fixed_window.py`) -/

/-- `FixedWindow` state after `__init__`. -/
structure FixedWindow where
  limit : ℤ
  window : ℤ
  deriving DecidableEq, Repr

/-- `FixedWindow.check_and_consume(current_count, window_start, cost, now)`,
returning `(Decision, new_count, new_window_start)`. -/
def FixedWindow.check_and_consume (fw : FixedWindow)
    (current_count : ℤ) (window_start : ℚ) (cost : ℤ) (now : ℚ) :
    Decision × ℤ × ℚ :=
  let rolled : Bool := (fw.window : ℚ) ≤ now - window_start
  let current_count := if rolled then 0 else current_count
  let window_start := if rolled then now else window_start
  let reset_at := pyInt (window_start + fw.window)
  if current_count + cost ≤ fw.limit then
    (⟨true, fw.limit, fw.limit - (current_count + cost), reset_at, none⟩,
     current_count + cost, window_start)
  else
    let retry_after := pyInt ((reset_at : ℚ) - now) + 1
    (⟨false, fw.limit, 0, reset_at, some retry_after⟩,
     current_count, window_start)

/-- `FixedWindow.initial_state(now)`. -/
def FixedWindow.initial_state (now : ℚ) : ℤ × ℚ := (0, now)

/-! ## Sliding window (`halt/algorithms/sliding_window.py`)

The Python `dict[int, int]` of sub-bucket counts is modelled as an
association list `List (ℤ × ℤ)` (bucket id, count), updated in insertion
order exactly as a Python dict is. -/

/-- `d.get(k, 0)` on the bucket dict. -/
def dictGet (l : List (ℤ × ℤ)) (k : ℤ) : ℤ :=
  match l.find? (fun p => p.1 = k) with
  | some p => p.2
  | none => 0

/-- `d[k] = v` on the bucket dict: update in place when the key is present
(Python dicts keep insertion order), else append. -/
def dictSet (l : List (ℤ × ℤ)) (k : ℤ) (v : ℤ) : List (ℤ × ℤ) :=
  if l.any (fun p => p.1 = k) then
    l.map (fun p => if p.1 = k then (k, v) else p)
  else
    l ++ [(k, v)]

/-- `min(d.keys())` with a default for the empty dict. -/
def keysMin (l : List (ℤ × ℤ)) (dflt : ℤ) : ℤ :=
  match l.map Prod.fst with
  | [] => dflt
  | x :: xs => xs.foldl min x

/-- `SlidingWindow` state after `__init__`: `bucket_size = window / precision`. -/
structure SlidingWindow where
  limit : ℤ
  window : ℤ
  precision : ℤ
  bucket_size : ℚ
  deriving DecidableEq, Repr

/-- `SlidingWindow.__init__(limit, window, precision)`. -/
def mkSlidingWindow (limit window precision : ℤ) : SlidingWindow :=
  ⟨limit, window, precision, (window : ℚ) / (precision : ℚ)⟩

/-- Line 49: `current_bucket = int(now / self.bucket_size)`. -/
def SlidingWindow.currentBucket (sw : SlidingWindow) (now : ℚ) : ℤ :=
  pyInt (now / sw.bucket_size)

/-- Lines 52–57: drop the expired sub-buckets (`bucket_id > cutoff` kept). -/
def SlidingWindow.retained (sw : SlidingWindow) (buckets : List (ℤ × ℤ))
    (now : ℚ) : List (ℤ × ℤ) :=
  buckets.filter (fun p => sw.currentBucket now - sw.precision < p.1)

/-- Line 60: `total_count = sum(new_buckets.values())`. -/
def SlidingWindow.totalCount (sw : SlidingWindow) (buckets : List (ℤ × ℤ))
    (now : ℚ) : ℤ :=
  ((sw.retained buckets now).map Prod.snd).sum

/-- `SlidingWindow.check_and_consume(buckets, cost, now)`, returning
`(Decision, new_buckets)`. -/
def SlidingWindow.check_and_consume (sw : SlidingWindow)
    (buckets : List (ℤ × ℤ)) (cost : ℤ) (now : ℚ) :
    Decision × List (ℤ × ℤ) :=
  let current_bucket := sw.currentBucket now
  let new_buckets := sw.retained buckets now
  let total_count := sw.totalCount buckets now
  let oldest_bucket := keysMin new_buckets current_bucket
  let reset_at := pyInt ((oldest_bucket + sw.precision + 1 : ℤ) * sw.bucket_size)
  if total_count + cost ≤ sw.limit then
    let new_buckets := dictSet new_buckets current_bucket
      (dictGet new_buckets current_bucket + cost)
    (⟨true, sw.limit, sw.limit - (total_count + cost), reset_at, none⟩,
     new_buckets)
  else
    let retry_after := pyInt sw.bucket_size + 1
    (⟨false, sw.limit, 0, reset_at, some retry_after⟩, new_buckets)

/-- `SlidingWindow.initial_state()`. -/
def SlidingWindow.initial_state : List (ℤ × ℤ) := []

/-! ## In-memory store (`halt/stores/memory.py`)

`_data` and `_expiry` are association lists keyed by strings; values are the
integers the counter flows store.  Wall-clock `time.time()` is passed in
explicitly as `now : ℚ`. -/

/-- `InMemoryStore` with its two mappings. -/
structure InMemoryStore where
  data : List (String × ℤ)
  expiry : List (String × ℚ)
  deriving DecidableEq, Repr

/-- Association-list lookup, Python `dict.get`. -/
def alistGet {α : Type} (l : List (String × α)) (k : String) : Option α :=
  match l.find? (fun p => p.1 = k) with
  | some p => some p.2
  | none => none

/-- Association-list update, Python `d[k] = v`. -/
def alistSet {α : Type} (l : List (String × α)) (k : String) (v : α) :
    List (String × α) :=
  if l.any (fun p => p.1 = k) then
    l.map (fun p => if p.1 = k then (k, v) else p)
  else
    l ++ [(k, v)]

/-- Association-list removal, Python `d.pop(k, None)`. -/
def alistDel {α : Type} (l : List (String × α)) (k : String) :
    List (String × α) :=
  l.filter (fun p => ¬ p.1 = k)

/-- `InMemoryStore._cleanup_expired(key)` at time `now`. -/
def InMemoryStore.cleanup_expired (s : InMemoryStore) (key : String)
    (now : ℚ) : InMemoryStore :=
  match alistGet s.expiry key with
  | some e => if e ≤ now then ⟨alistDel s.data key, alistDel s.expiry key⟩ else s
  | none => s

/-- `InMemoryStore.get(key)` at time `now`: lazily evicts an expired key,
returning the value and the store after the lazy eviction. -/
def InMemoryStore.get (s : InMemoryStore) (key : String) (now : ℚ) :
    Option ℤ × InMemoryStore :=
  let s := s.cleanup_expired key now
  (alistGet s.data key, s)

/-- `InMemoryStore.increment(key, delta, ttl)` at time `now`, returning the
new value and the updated store. -/
def InMemoryStore.increment (s : InMemoryStore) (key : String) (delta : ℤ)
    (ttl : Option ℤ) (now : ℚ) : ℤ × InMemoryStore :=
  let s := s.cleanup_expired key now
  let current := (alistGet s.data key).getD 0
  let new_value := current + delta
  let data := alistSet s.data key new_value
  let expiry :=
    match alistGet s.expiry key, ttl with
    | none, some t => alistSet s.expiry key (now + t)
    | _, _ => s.expiry
  (new_value, ⟨data, expiry⟩)

/-! ## Policy (`halt/core/policy.py`)

`algorithm` is carried as the raw string value of the `Algorithm` str-enum;
the four known members are listed in `knownAlgorithms`.  Dataclass
construction with its `__post_init__` validation is `Policy.postInit`,
returning `Except` for `raise ValueError`. -/

/-- The four members of the `Algorithm` enum. -/
def knownAlgorithms : List String :=
  ["token_bucket", "fixed_window", "sliding_window", "leaky_bucket"]

/-- The configuration fields of `Policy` that `__post_init__` inspects. -/
structure PolicyConfig where
  limit : ℤ
  window : ℤ
  cost : ℤ
  burst : Option ℤ
  algorithm : String
  deriving DecidableEq, Repr

/-- A validated `Policy` (after `__post_init__` succeeded). -/
structure Policy where
  limit : ℤ
  window : ℤ
  cost : ℤ
  burst : ℤ
  algorithm : String
  deriving DecidableEq, Repr

/-- `Policy.__post_init__`: defaults `burst` to `int(limit * 1.2)` then
validates, raising `ValueError` on the first violated check. -/
def Policy.postInit (c : PolicyConfig) : Except String Policy :=
  let burst := c.burst.getD (pyInt ((c.limit : ℚ) * (6 / 5)))
  if c.limit ≤ 0 then .error "limit must be positive"
  else if c.window ≤ 0 then .error "window must be positive"
  else if c.cost ≤ 0 then .error "cost must be positive"
  else if burst < c.limit then .error "burst must be >= limit"
  else .ok ⟨c.limit, c.window, c.cost, burst, c.algorithm⟩

/-! ## Quota manager (`halt/core/quota.py`)

`Quota._calculate_reset_time` reads the wall clock and does Gregorian
calendar arithmetic; it is abstracted as a parameter
`calcReset : ℤ → ℤ` mapping `now` to the next calendar boundary.  For the
`HOURLY` period the source computes exactly the next top of the hour, which
over epoch seconds is `hourlyReset`.  The manager reads and writes a single
storage key per `(identifier, quota)`; that one cell is modelled as
`QuotaCell` (value plus expiry deadline, as kept by the in-memory store). -/

/-- Next top of the hour from epoch seconds: the `HOURLY` branch of
`Quota._calculate_reset_time`. -/
def hourlyReset (now : ℤ) : ℤ := (now.fdiv 3600 + 1) * 3600

/-- The serialized quota record stored by `consume_quota`. -/
structure StoredQuota where
  limit : ℤ
  current_usage : ℤ
  reset_at : ℤ
  deriving DecidableEq, Repr

/-- The storage cell holding one quota record (value and expiry deadline). -/
structure QuotaCell where
  val : Option StoredQuota
  expiry : Option ℤ
  deriving DecidableEq, Repr

/-- `store.get(key)` on the cell: `None` if absent or expired
(`_cleanup_expired` removes the entry when `now ≥ expiry`). -/
def QuotaCell.get (c : QuotaCell) (now : ℤ) : Option StoredQuota × QuotaCell :=
  match c.expiry with
  | some e => if e ≤ now then (none, ⟨none, none⟩) else (c.val, c)
  | none => (c.val, c)

/-- `store.set(key, value, ttl)` on the cell. -/
def QuotaCell.set (c : QuotaCell) (v : StoredQuota) (ttl : Option ℤ)
    (now : ℤ) : QuotaCell :=
  match ttl with
  | some t => ⟨some v, some (now + t)⟩
  | none => ⟨some v, none⟩

/-- `QuotaManager.get_quota(identifier, quota)`: deserialize the stored
record (or build a fresh one), then reset the in-memory copy when
`now ≥ reset_at`; returns the quota and the cell after the read. -/
def getQuota (calcReset : ℤ → ℤ) (cfgLimit : ℤ) (c : QuotaCell) (now : ℤ) :
    StoredQuota × QuotaCell :=
  match c.get now with
  | (none, c') => (⟨cfgLimit, 0, calcReset now⟩, c')
  | (some q, c') =>
    if q.reset_at ≤ now then (⟨q.limit, 0, calcReset now⟩, c') else (q, c')

/-- `QuotaManager.check_quota(identifier, quota, cost)`: returns
`(allowed, quota_snapshot)` plus the cell after the operation. -/
def checkQuota (calcReset : ℤ → ℤ) (cfgLimit : ℤ) (c : QuotaCell) (now : ℤ)
    (cost : ℤ) : Bool × StoredQuota × QuotaCell :=
  let (q, c') := getQuota calcReset cfgLimit c now
  (q.current_usage + cost ≤ q.limit, q, c')

/-- `QuotaManager.consume_quota(identifier, quota, cost)`: increments usage
and writes the record back with TTL `reset_at - now + 3600`. -/
def consumeQuota (calcReset : ℤ → ℤ) (cfgLimit : ℤ) (c : QuotaCell) (now : ℤ)
    (cost : ℤ) : StoredQuota × QuotaCell :=
  let (q, c') := getQuota calcReset cfgLimit c now
  let q := { q with current_usage := q.current_usage + cost }
  let ttl := q.reset_at - now + 3600
  (q, c'.set q (some ttl) now)

/-! ## Penalty engine (`halt/core/penalty.py`)

Times are epoch seconds (`ℤ`, the source stores `int(time.time())`); the
abuse score and multiplier are floats (`ℚ`).  The single storage key
`halt:penalty:<identifier>` is modelled as `PenaltyCell`. -/

/-- `PenaltyConfig`. -/
structure PenaltyConfig where
  threshold : ℤ
  duration : ℤ
  multiplier : ℚ
  decay_rate : ℚ
  deriving DecidableEq, Repr

/-- `Penalty` state. -/
structure Penalty where
  abuse_score : ℚ
  penalty_until : Option ℤ
  violations : ℤ
  last_violation : Option ℤ
  deriving DecidableEq, Repr

/-- `Penalty.is_active()` at time `now`. -/
def Penalty.is_active (p : Penalty) (now : ℤ) : Bool :=
  match p.penalty_until with
  | none => false
  | some u => now < u

/-- The storage cell holding one serialized penalty record. -/
structure PenaltyCell where
  val : Option Penalty
  expiry : Option ℤ
  deriving DecidableEq, Repr

/-- `store.get` on the penalty cell (absent or expired gives `None`). -/
def PenaltyCell.get (c : PenaltyCell) (now : ℤ) : Option Penalty :=
  match c.expiry with
  | some e => if e ≤ now then none else c.val
  | none => c.val

/-- `PenaltyManager.get_penalty(identifier)`: default state on a miss, else
the stored state with linear decay applied.  The guard
`if penalty.last_violation:` is Python truthiness: decay is skipped when
`last_violation` is `None` or `0`. -/
def getPenalty (cfg : PenaltyConfig) (c : PenaltyCell) (now : ℤ) : Penalty :=
  match c.get now with
  | none => ⟨0, none, 0, none⟩
  | some p =>
    match p.last_violation with
    | some lv =>
      if lv ≠ 0 then
        let decay := ((now : ℚ) - (lv : ℚ)) / 3600 * cfg.decay_rate
        { p with abuse_score := max 0 (p.abuse_score - decay) }
      else p
    | none => p

/-- `PenaltyManager._save_penalty`: write-back with a 7-day TTL. -/
def savePenalty (p : Penalty) (now : ℤ) : PenaltyCell :=
  ⟨some p, some (now + 7 * 24 * 3600)⟩

/-- `PenaltyManager.record_violation(identifier, severity)`. -/
def recordViolation (cfg : PenaltyConfig) (c : PenaltyCell) (now : ℤ)
    (severity : ℚ) : Penalty × PenaltyCell :=
  let p := getPenalty cfg c now
  let p := { p with
    abuse_score := p.abuse_score + severity,
    violations := p.violations + 1,
    last_violation := some now }
  let p :=
    if (cfg.threshold : ℚ) ≤ p.abuse_score ∧ ¬ p.is_active now then
      { p with penalty_until := some (now + cfg.duration) }
    else p
  (p, savePenalty p now)

/-- `PenaltyManager.get_rate_limit_multiplier(identifier)`. -/
def getRateLimitMultiplier (cfg : PenaltyConfig) (c : PenaltyCell) (now : ℤ) :
    ℚ :=
  if (getPenalty cfg c now).is_active now then cfg.multiplier else 1

/-- `PENALTY_MODERATE` preset: threshold 10, duration 3600, multiplier 0.5,
decay 1 point/hour. -/
def PENALTY_MODERATE : PenaltyConfig := ⟨10, 3600, 1/2, 1⟩

/-- One `record_violation(identifier, severity=1.0)` at t = 0 under the
moderate config, keeping only the resulting store cell. -/
def penaltyStep (c : PenaltyCell) : PenaltyCell :=
  (recordViolation PENALTY_MODERATE c 0 1).2

/-- The store cell after ten violations recorded at t = 0 from no prior
state. -/
def penaltyAfterTen : PenaltyCell :=
  penaltyStep (penaltyStep (penaltyStep (penaltyStep (penaltyStep
    (penaltyStep (penaltyStep (penaltyStep (penaltyStep (penaltyStep
      ⟨none, none⟩)))))))))

/-! ## Helper lemmas -/

theorem le_pyInt_mul_six_fifth {n : ℤ} (h : 0 < n) :
    n ≤ pyInt ((n : ℚ) * (6 / 5)) := by
  have hn : (0 : ℚ) ≤ (n : ℚ) * (6 / 5) := by positivity
  rw [pyInt_of_nonneg hn]
  refine Int.le_floor.mpr ?_
  have : (0 : ℚ) ≤ (n : ℚ) := by exact_mod_cast h.le
  nlinarith

/-! ## Claims -/

/-- C7: for the fixed-window algorithm with limit 3, window 10, cost 1,
starting from the initial state at t = 0, the checks at t = 0, 1, 2 are
allowed with remaining 2, 1, 0; the check at t = 3 is denied with
retry_after 8 and reset_at 10; and the check at t = 10 rolls the window and
is allowed with remaining 2. -/
theorem fixedWindow_scenario :
    let fw : FixedWindow := ⟨3, 10⟩
    let s0 := FixedWindow.initial_state 0
    let r0 := fw.check_and_consume s0.1 s0.2 1 0
    let r1 := fw.check_and_consume r0.2.1 r0.2.2 1 1
    let r2 := fw.check_and_consume r1.2.1 r1.2.2 1 2
    let r3 := fw.check_and_consume r2.2.1 r2.2.2 1 3
    let r4 := fw.check_and_consume r3.2.1 r3.2.2 1 10
    r0.1.allowed = true ∧ r0.1.remaining = 2 ∧
    r1.1.allowed = true ∧ r1.1.remaining = 1 ∧
    r2.1.allowed = true ∧ r2.1.remaining = 0 ∧
    r3.1.allowed = false ∧ r3.1.retry_after = some 8 ∧ r3.1.reset_at = 10 ∧
    r4.1.allowed = true ∧ r4.1.remaining = 2 := by
  norm_num [FixedWindow.check_and_consume, FixedWindow.initial_state, pyInt]

/-- C4 counterexample: constructing a `Policy` with limit 3 and no explicit
burst yields burst 3, not `⌈3 * 1.2⌉ = 4` as the claim states. -/
theorem policy_default_burst_counterexample :
    Policy.postInit ⟨3, 1, 1, none, "token_bucket"⟩ =
      .ok ⟨3, 1, 1, 3, "token_bucket"⟩ ∧
    (3 : ℤ) ≠ ⌈(3 : ℚ) * (6 / 5)⌉ := by
  constructor
  · norm_num [Policy.postInit, pyInt]
  · have : ⌈(3 : ℚ) * (6 / 5)⌉ = 4 := by
      rw [Int.ceil_eq_iff]
      norm_num
    rw [this]; decide

/-- C4 amended: for every positive limit (with positive window and cost),
constructing a `Policy` without an explicit burst succeeds and sets
`burst = int(limit * 1.2)`, the floor (truncation) of `limit * 1.2` — not
its ceiling; e.g. limit 3 yields burst 3. -/
theorem policy_default_burst (limit window cost : ℤ) (alg : String)
    (h1 : 0 < limit) (h2 : 0 < window) (h3 : 0 < cost) :
    Policy.postInit ⟨limit, window, cost, none, alg⟩ =
      .ok ⟨limit, window, cost, ⌊(limit : ℚ) * (6 / 5)⌋, alg⟩ := by
  have hb := le_pyInt_mul_six_fifth h1
  have hnn : (0 : ℚ) ≤ (limit : ℚ) * (6 / 5) := by positivity
  simp only [Policy.postInit, Option.getD]
  rw [if_neg (by omega), if_neg (by omega), if_neg (by omega),
    if_neg (by omega), pyInt_of_nonneg hnn]

/-- C4 witness: the amended default-burst theorem applied at
limit 3, window 1, cost 1. -/
theorem policy_default_burst_witness :
    Policy.postInit ⟨3, 1, 1, none, "token_bucket"⟩ =
      .ok ⟨3, 1, 1, ⌊(3 : ℚ) * (6 / 5)⌋, "token_bucket"⟩ :=
  policy_default_burst 3 1 1 "token_bucket" (by decide) (by decide) (by decide)

/-- C6 counterexample: a `Policy` whose algorithm is not one of the four
known algorithms constructs successfully — `__post_init__` never validates
the algorithm, so construction does not fail on every invalid
configuration. -/
theorem policy_unknown_algorithm_counterexample :
    Policy.postInit ⟨1, 1, 1, none, "bogus"⟩ = .ok ⟨1, 1, 1, 1, "bogus"⟩ ∧
    "bogus" ∉ knownAlgorithms := by
  constructor
  · norm_num [Policy.postInit, pyInt]
  · decide

/-- C6 amended: constructing a `Policy` fails iff `limit ≤ 0`, or
`window ≤ 0`, or `cost ≤ 0`, or an explicitly supplied `burst < limit`; the
algorithm is never validated at construction (an unknown algorithm passes),
and a defaulted burst never triggers the `burst ≥ limit` check. -/
theorem policy_postInit_error_iff (c : PolicyConfig) :
    (∃ e, Policy.postInit c = .error e) ↔
      (c.limit ≤ 0 ∨ c.window ≤ 0 ∨ c.cost ≤ 0 ∨
        ∃ b, c.burst = some b ∧ b < c.limit) := by
  obtain ⟨limit, window, cost, burst?, alg⟩ := c
  cases burst? with
  | none =>
    simp only [Policy.postInit, Option.getD_none]
    split_ifs with h1 h2 h3 h4
    · simp [h1]
    · simp [h2]
    · simp [h3]
    · exact absurd (le_pyInt_mul_six_fifth (by omega)) (not_le.mpr h4)
    · simp [h1, h2, h3]
  | some b =>
    simp only [Policy.postInit, Option.getD_some]
    split_ifs with h1 h2 h3 h4
    · simp [h1]
    · simp [h2]
    · simp [h3]
    · simp [h4]
    · simp [h1, h2, h3, h4]

/-- C1 counterexample: for capacity 10, rate 1 token/s, tokens 5,
last_refill 0, cost 3, now 0 (an allowed check, refilled count 5), the code
returns `reset_at = 5` — computed from the pre-consumption refilled count
with truncation — while the claim's formula
`ceil(now + (capacity - (tokens' - cost)) / rate)` gives 8. -/
theorem tokenBucket_resetAt_claim_counterexample :
    let tb := mkTokenBucket 10 10 10
    let r := tb.check_and_consume 5 0 3 0
    r.1.allowed = true ∧ tb.refill 5 0 0 = 5 ∧ r.1.reset_at = 5 ∧
    ⌈(0 : ℚ) + ((10 : ℚ) - ((5 : ℚ) - 3)) / 1⌉ = 8 ∧ (5 : ℤ) ≠ 8 := by
  refine ⟨?_, ?_, ?_, ?_, by decide⟩
  · norm_num [mkTokenBucket, TokenBucket.check_and_consume, TokenBucket.refill]
  · norm_num [mkTokenBucket, TokenBucket.refill]
  · norm_num [mkTokenBucket, TokenBucket.check_and_consume, TokenBucket.refill,
      pyInt]
  · rw [Int.ceil_eq_iff]
    norm_num

/-- C1 amended: for every allowed token-bucket check (refilled count
`tokens' ≥ cost`) the decision has `remaining = ⌊tokens' - cost⌋`, but
`reset_at = int(now + (capacity - tokens') / rate)` — truncation, not
ceiling, and computed from the pre-consumption refilled count `tokens'`,
not from the post-consumption count; the new state is `(tokens' - cost,
now)`. -/
theorem tokenBucket_allowed_metadata (tb : TokenBucket) (tokens lr : ℚ)
    (cost : ℤ) (now : ℚ) (h : (cost : ℚ) ≤ tb.refill tokens lr now) :
    (tb.check_and_consume tokens lr cost now).1.allowed = true ∧
    (tb.check_and_consume tokens lr cost now).1.remaining =
      ⌊tb.refill tokens lr now - (cost : ℚ)⌋ ∧
    (tb.check_and_consume tokens lr cost now).1.reset_at =
      pyInt (now + ((tb.capacity : ℚ) - tb.refill tokens lr now) / tb.rate) ∧
    (tb.check_and_consume tokens lr cost now).2 =
      (tb.refill tokens lr now - (cost : ℚ), now) := by
  have hnn : (0 : ℚ) ≤ tb.refill tokens lr now - (cost : ℚ) :=
    sub_nonneg.mpr h
  simp only [TokenBucket.check_and_consume, if_pos h]
  simp [pyInt_of_nonneg hnn]

/-- C1 witness: the amended allowed-branch theorem applied at capacity 10,
rate 1 token/s, tokens 5, last_refill 0, cost 3, now 0. -/
theorem tokenBucket_allowed_metadata_witness :
    ((3 : ℤ) : ℚ) ≤ (mkTokenBucket 10 10 10).refill 5 0 0 ∧
    (((mkTokenBucket 10 10 10).check_and_consume 5 0 3 0).1.allowed = true ∧
     ((mkTokenBucket 10 10 10).check_and_consume 5 0 3 0).1.remaining =
       ⌊(mkTokenBucket 10 10 10).refill 5 0 0 - ((3 : ℤ) : ℚ)⌋ ∧
     ((mkTokenBucket 10 10 10).check_and_consume 5 0 3 0).1.reset_at =
       pyInt (0 + (((mkTokenBucket 10 10 10).capacity : ℚ) -
         (mkTokenBucket 10 10 10).refill 5 0 0) / (mkTokenBucket 10 10 10).rate) ∧
     ((mkTokenBucket 10 10 10).check_and_consume 5 0 3 0).2 =
       ((mkTokenBucket 10 10 10).refill 5 0 0 - ((3 : ℤ) : ℚ), 0)) :=
  ⟨by norm_num [mkTokenBucket, TokenBucket.refill],
   tokenBucket_allowed_metadata (mkTokenBucket 10 10 10) 5 0 3 0
     (by norm_num [mkTokenBucket, TokenBucket.refill])⟩

/-- C9 counterexample: with capacity 1, rate 1 token/s, tokens 0,
last_refill 0, now 5, cost 10, every condition of the claim holds
(0 ≤ tokens < capacity, last_refill < now, refilled count 1 < cost), yet
feeding the returned state into a second check at the same `now` yields the
same refilled count (clamped at capacity), not a strictly larger one. -/
theorem tokenBucket_denied_recredit_counterexample :
    let tb := mkTokenBucket 1 5 5
    let r := tb.check_and_consume 0 0 10 5
    ((0 : ℚ) ≤ 0 ∧ (0 : ℚ) < (tb.capacity : ℚ) ∧ (0 : ℚ) < 5 ∧
      tb.refill 0 0 5 < ((10 : ℤ) : ℚ)) ∧
    r.1.allowed = false ∧ r.2 = (1, 0) ∧
    tb.refill r.2.1 r.2.2 5 = tb.refill 0 0 5 := by
  norm_num [mkTokenBucket, TokenBucket.check_and_consume, TokenBucket.refill]

/-- C9 amended: a denied token-bucket check returns the refilled token
count paired with the unchanged input `last_refill`, so the elapsed
interval is credited again: provided the refilled count is strictly below
capacity (e.g. whenever `cost ≤ capacity`) and the rate is positive, the
second check at the same `now` computes a strictly larger refilled count;
when the first refilled count already equals capacity the second one is
merely equal (clamped at capacity). -/
theorem tokenBucket_denied_recredit (tb : TokenBucket) (tokens lr : ℚ)
    (cost : ℤ) (now : ℚ)
    (h0 : 0 ≤ tokens) (h1 : tokens < (tb.capacity : ℚ)) (h2 : lr < now)
    (h3 : tb.refill tokens lr now < (cost : ℚ)) (h4 : 0 < tb.rate)
    (h5 : tb.refill tokens lr now < (tb.capacity : ℚ)) :
    (tb.check_and_consume tokens lr cost now).1.allowed = false ∧
    (tb.check_and_consume tokens lr cost now).2 =
      (tb.refill tokens lr now, lr) ∧
    tb.refill tokens lr now <
      tb.refill (tb.check_and_consume tokens lr cost now).2.1
        (tb.check_and_consume tokens lr cost now).2.2 now := by
  have hden : ¬ ((cost : ℚ) ≤ tb.refill tokens lr now) := not_le.mpr h3
  simp only [TokenBucket.check_and_consume, if_neg hden]
  refine ⟨trivial, trivial, ?_⟩
  show tb.refill tokens lr now < tb.refill (tb.refill tokens lr now) lr now
  unfold TokenBucket.refill
  exact lt_min h5
    (lt_add_of_pos_right _ (mul_pos (sub_pos.mpr h2) h4))

/-- C9 witness: the amended re-credit theorem applied at capacity 2,
rate 1 token/s, tokens 0, last_refill 0, cost 1, now 1/2. -/
theorem tokenBucket_denied_recredit_witness :
    ((mkTokenBucket 2 1 1).refill 0 0 (1/2) < ((1 : ℤ) : ℚ)) ∧
    (((mkTokenBucket 2 1 1).check_and_consume 0 0 1 (1/2)).1.allowed = false ∧
     ((mkTokenBucket 2 1 1).check_and_consume 0 0 1 (1/2)).2 =
       ((mkTokenBucket 2 1 1).refill 0 0 (1/2), 0) ∧
     (mkTokenBucket 2 1 1).refill 0 0 (1/2) <
       (mkTokenBucket 2 1 1).refill
         ((mkTokenBucket 2 1 1).check_and_consume 0 0 1 (1/2)).2.1
         ((mkTokenBucket 2 1 1).check_and_consume 0 0 1 (1/2)).2.2 (1/2)) :=
  ⟨by norm_num [mkTokenBucket, TokenBucket.refill],
   tokenBucket_denied_recredit (mkTokenBucket 2 1 1) 0 0 1 (1/2)
     (by norm_num) (by norm_num [mkTokenBucket])
     (by norm_num) (by norm_num [mkTokenBucket, TokenBucket.refill])
     (by norm_num [mkTokenBucket]) (by norm_num [mkTokenBucket, TokenBucket.refill])⟩

/-- C5 counterexample: for limit 1, window 10, precision 3 (sub-bucket size
10/3) a denied check returns `retry_after = int(10/3) + 1 = 4`, while the
claim's `ceil(window/precision) + 1` gives 5. -/
theorem slidingWindow_retry_after_counterexample :
    let sw := mkSlidingWindow 1 10 3
    let r := sw.check_and_consume [] 2 0
    r.1.allowed = false ∧ r.1.retry_after = some 4 ∧
    ⌈(10 : ℚ) / 3⌉ + 1 = 5 ∧ some (4 : ℤ) ≠ some (5 : ℤ) := by
  refine ⟨?_, ?_, ?_, by decide⟩
  · norm_num [mkSlidingWindow, SlidingWindow.check_and_consume,
      SlidingWindow.currentBucket, SlidingWindow.retained,
      SlidingWindow.totalCount, keysMin, pyInt]
  · norm_num [mkSlidingWindow, SlidingWindow.check_and_consume,
      SlidingWindow.currentBucket, SlidingWindow.retained,
      SlidingWindow.totalCount, keysMin, pyInt]
  · have : ⌈(10 : ℚ) / 3⌉ = 4 := by
      rw [Int.ceil_eq_iff]
      norm_num
    omega

/-- C5 amended: every denied sliding-window check (retained total plus cost
exceeding the limit) returns
`retry_after = int(window/precision) + 1` — the floor (truncation) of the
sub-bucket size plus one, not its ceiling, which differ whenever the window
is not divisible by the precision. -/
theorem slidingWindow_denied_retry_after (limit window precision : ℤ)
    (buckets : List (ℤ × ℤ)) (cost : ℤ) (now : ℚ)
    (h : limit <
      (mkSlidingWindow limit window precision).totalCount buckets now + cost) :
    ((mkSlidingWindow limit window precision).check_and_consume
        buckets cost now).1.retry_after =
      some (pyInt ((window : ℚ) / (precision : ℚ)) + 1) := by
  have hden : ¬ ((mkSlidingWindow limit window precision).totalCount
      buckets now + cost ≤ (mkSlidingWindow limit window precision).limit) := by
    simpa [mkSlidingWindow] using not_le.mpr h
  simp only [SlidingWindow.check_and_consume, if_neg hden]
  simp [mkSlidingWindow]

/-- C5 witness: the amended retry_after theorem applied at limit 1,
window 10, precision 3, empty buckets, cost 2, now 0. -/
theorem slidingWindow_denied_retry_after_witness :
    ((1 : ℤ) <
      (mkSlidingWindow 1 10 3).totalCount [] 0 + 2) ∧
    ((mkSlidingWindow 1 10 3).check_and_consume [] 2 0).1.retry_after =
      some (pyInt ((10 : ℚ) / (3 : ℚ)) + 1) :=
  ⟨by norm_num [mkSlidingWindow, SlidingWindow.totalCount,
      SlidingWindow.retained],
   slidingWindow_denied_retry_after 1 10 3 [] 2 0
     (by norm_num [mkSlidingWindow, SlidingWindow.totalCount,
       SlidingWindow.retained])⟩

theorem sum_filter_map_snd_le (l : List (ℤ × ℤ)) (p : ℤ × ℤ → Bool)
    (h : ∀ x ∈ l, 0 ≤ x.2) :
    ((l.filter p).map Prod.snd).sum ≤ (l.map Prod.snd).sum := by
  induction l with
  | nil => simp
  | cons a t ih =>
    have ht := ih (fun x hx => h x (List.mem_cons_of_mem a hx))
    have ha := h a (List.mem_cons_self a t)
    by_cases hp : p a
    · simp only [List.filter_cons, hp, if_pos, List.map_cons, List.sum_cons]
      linarith
    · simp only [List.filter_cons, hp, List.map_cons, List.sum_cons,
        Bool.false_eq_true, if_false]
      linarith

/-- C10: a denied sliding-window check still mutates the stored state: the
returned mapping is the input mapping with every sub-bucket of index
`≤ ⌊now / bucket_size⌋ - precision` removed and no count added, so the
retained total never increases and at most `precision` sub-bucket indices
remain (given distinct indices none of which lies in the future). -/
theorem slidingWindow_denied_frame (limit window precision : ℤ)
    (buckets : List (ℤ × ℤ)) (cost : ℤ) (now : ℚ)
    (hwin : 0 < window) (hprec : 0 < precision) (hnow : 0 ≤ now)
    (hnodup : (buckets.map Prod.fst).Nodup)
    (hle : ∀ p ∈ buckets,
      p.1 ≤ (mkSlidingWindow limit window precision).currentBucket now)
    (hnn : ∀ p ∈ buckets, 0 ≤ p.2)
    (hden : limit <
      (mkSlidingWindow limit window precision).totalCount buckets now + cost) :
    ((mkSlidingWindow limit window precision).check_and_consume
        buckets cost now).1.allowed = false ∧
    ((mkSlidingWindow limit window precision).check_and_consume
        buckets cost now).2 =
      buckets.filter (fun p =>
        ⌊now / ((window : ℚ) / (precision : ℚ))⌋ - precision < p.1) ∧
    ((((mkSlidingWindow limit window precision).check_and_consume
        buckets cost now).2.map Prod.snd).sum ≤
      (buckets.map Prod.snd).sum) ∧
    ((((mkSlidingWindow limit window precision).check_and_consume
        buckets cost now).2.length : ℤ) ≤ precision) := by
  have hbs : (0 : ℚ) < (mkSlidingWindow limit window precision).bucket_size := by
    have hw : (0 : ℚ) < (window : ℚ) := by exact_mod_cast hwin
    have hp : (0 : ℚ) < (precision : ℚ) := by exact_mod_cast hprec
    simpa [mkSlidingWindow] using div_pos hw hp
  have hcur : (mkSlidingWindow limit window precision).currentBucket now =
      ⌊now / ((window : ℚ) / (precision : ℚ))⌋ := by
    rw [SlidingWindow.currentBucket, pyInt_of_nonneg (div_nonneg hnow hbs.le)]
    simp [mkSlidingWindow]
  have hden' : ¬ ((mkSlidingWindow limit window precision).totalCount
      buckets now + cost ≤ (mkSlidingWindow limit window precision).limit) := by
    simpa [mkSlidingWindow] using not_le.mpr hden
  have hretfilter : (mkSlidingWindow limit window precision).retained
      buckets now = buckets.filter (fun p =>
        ⌊now / ((window : ℚ) / (precision : ℚ))⌋ - precision < p.1) := by
    rw [SlidingWindow.retained, hcur]
    simp [mkSlidingWindow]
  simp only [SlidingWindow.check_and_consume, if_neg hden']
  refine ⟨trivial, hretfilter, ?_, ?_⟩
  · exact sum_filter_map_snd_le _ _ hnn
  · -- at most `precision` distinct indices remain
    have hsub : List.Sublist (((mkSlidingWindow limit window precision).retained
        buckets now).map Prod.fst) (buckets.map Prod.fst) :=
      (List.filter_sublist _).map _
    have hnd : (((mkSlidingWindow limit window precision).retained
        buckets now).map Prod.fst).Nodup := hnodup.sublist hsub
    have hsubset : (((mkSlidingWindow limit window precision).retained
        buckets now).map Prod.fst).toFinset ⊆
        Finset.Ioc ((mkSlidingWindow limit window precision).currentBucket now
          - precision)
          ((mkSlidingWindow limit window precision).currentBucket now) := by
      intro k hk
      rw [List.mem_toFinset, List.mem_map] at hk
      obtain ⟨p, hp, rfl⟩ := hk
      rw [SlidingWindow.retained, List.mem_filter] at hp
      obtain ⟨hpmem, hplt⟩ := hp
      rw [Finset.mem_Ioc]
      refine ⟨?_, hle p hpmem⟩
      have := of_decide_eq_true hplt
      simpa [mkSlidingWindow] using this
    have hcard := Finset.card_le_card hsubset
    rw [Int.card_Ioc, List.toFinset_card_of_nodup hnd, List.length_map]
      at hcard
    omega

/-- C10 witness: the denied-frame theorem applied at limit 1, window 10,
precision 2, buckets `{0: 1}`, cost 1, now 0. -/
theorem slidingWindow_denied_frame_witness :
    ((1 : ℤ) < (mkSlidingWindow 1 10 2).totalCount [((0 : ℤ), (1 : ℤ))] 0 + 1) ∧
    (((mkSlidingWindow 1 10 2).check_and_consume
        [((0 : ℤ), (1 : ℤ))] 1 0).1.allowed = false ∧
     ((mkSlidingWindow 1 10 2).check_and_consume
        [((0 : ℤ), (1 : ℤ))] 1 0).2 =
       [((0 : ℤ), (1 : ℤ))].filter (fun p =>
         ⌊(0 : ℚ) / ((10 : ℚ) / (2 : ℚ))⌋ - 2 < p.1) ∧
     ((((mkSlidingWindow 1 10 2).check_and_consume
        [((0 : ℤ), (1 : ℤ))] 1 0).2.map Prod.snd).sum ≤
       ([((0 : ℤ), (1 : ℤ))].map Prod.snd).sum) ∧
     ((((mkSlidingWindow 1 10 2).check_and_consume
        [((0 : ℤ), (1 : ℤ))] 1 0).2.length : ℤ) ≤ 2)) :=
  ⟨by norm_num [mkSlidingWindow, SlidingWindow.totalCount,
     SlidingWindow.retained, SlidingWindow.currentBucket, pyInt],
   slidingWindow_denied_frame 1 10 2 [((0 : ℤ), (1 : ℤ))] 1 0
     (by decide) (by decide) (by norm_num)
     (by decide)
     (by norm_num [mkSlidingWindow, SlidingWindow.currentBucket, pyInt])
     (by norm_num)
     (by norm_num [mkSlidingWindow, SlidingWindow.totalCount,
       SlidingWindow.retained, SlidingWindow.currentBucket, pyInt])⟩

/-- C3 (code bug): `increment` sets its TTL whenever the key has no entry in
`_expiry`, not when the key is newly created.  For a store holding
`{"k": 5}` with no expiry deadline, `increment("k", 1, ttl=10)` at time 0
returns 6 and installs the deadline 10 on the already-existing key, against
the docstring "only set if key doesn't exist". -/
theorem increment_ttl_existing_key_bug :
    let s : InMemoryStore := ⟨[("k", 5)], []⟩
    let r := s.increment "k" 1 (some 10) 0
    alistGet s.data "k" = some 5 ∧
    alistGet s.expiry "k" = none ∧
    r.1 = 6 ∧
    r.2.data = [("k", 6)] ∧
    alistGet r.2.expiry "k" = some 10 := by
  refine ⟨by simp [alistGet, List.find?], by simp [alistGet, List.find?],
    ?_, ?_, ?_⟩
  · simp [InMemoryStore.increment, InMemoryStore.cleanup_expired, alistGet,
      List.find?]
  · simp [InMemoryStore.increment, InMemoryStore.cleanup_expired, alistGet,
      alistSet, List.find?, List.any]
  · norm_num [InMemoryStore.increment, InMemoryStore.cleanup_expired,
      alistGet, alistSet, List.find?, List.any]

/-- C2 counterexample: a stored quota record `{limit 10, usage 5,
reset_at 100}` (store TTL far in the future) accessed by `check_quota` at
`now = 200 ≥ reset_at` is left in the store unchanged — usage 5, not 0 —
while only the returned snapshot is reset. -/
theorem checkQuota_stored_reset_counterexample :
    let cell : QuotaCell := ⟨some ⟨10, 5, 100⟩, some 1000000000⟩
    let r := checkQuota hourlyReset 10 cell 200 1
    (100 : ℤ) ≤ 200 ∧
    r.2.2 = cell ∧
    r.2.2.val = some ⟨10, 5, 100⟩ ∧
    (5 : ℤ) ≠ 0 ∧
    r.2.1 = ⟨10, 0, 3600⟩ := by
  decide

/-- C2 amended: on every read of an expired quota record (`now ≥ reset_at`,
entry not yet TTL-evicted) the reset applies to the in-memory snapshot
only: `check_quota` returns a snapshot with usage 0 and a recomputed
boundary but leaves the stored record untouched (it never writes), while
`consume_quota` writes back the reset-then-incremented record with
usage = cost, the recomputed boundary, and TTL `reset_at' - now + 3600`. -/
theorem quota_expiry_reset_semantics (calcReset : ℤ → ℤ) (cfgLimit : ℤ)
    (q : StoredQuota) (e now cost : ℤ)
    (hactive : now < e) (hexp : q.reset_at ≤ now) :
    checkQuota calcReset cfgLimit ⟨some q, some e⟩ now cost =
      ((decide (cost ≤ q.limit)), ⟨q.limit, 0, calcReset now⟩,
        ⟨some q, some e⟩) ∧
    consumeQuota calcReset cfgLimit ⟨some q, some e⟩ now cost =
      (⟨q.limit, cost, calcReset now⟩,
       ⟨some ⟨q.limit, cost, calcReset now⟩,
        some (now + (calcReset now - now + 3600))⟩) := by
  have hget : QuotaCell.get ⟨some q, some e⟩ now =
      (some q, ⟨some q, some e⟩) := by
    simp [QuotaCell.get, not_le.mpr hactive]
  constructor
  · simp [checkQuota, getQuota, hget, if_pos hexp]
  · simp [consumeQuota, getQuota, hget, if_pos hexp, QuotaCell.set]

/-- C2 witness: the amended quota-reset theorem applied to the record
`{limit 10, usage 5, reset_at 100}` with the hourly boundary function at
`now = 200`, cost 1. -/
theorem quota_expiry_reset_semantics_witness :
    ((200 : ℤ) < 1000000000 ∧ (100 : ℤ) ≤ 200) ∧
    (checkQuota hourlyReset 10 ⟨some ⟨10, 5, 100⟩, some 1000000000⟩ 200 1 =
      ((decide ((1 : ℤ) ≤ 10)), ⟨10, 0, hourlyReset 200⟩,
        ⟨some ⟨10, 5, 100⟩, some 1000000000⟩) ∧
     consumeQuota hourlyReset 10 ⟨some ⟨10, 5, 100⟩, some 1000000000⟩ 200 1 =
      (⟨10, 1, hourlyReset 200⟩,
       ⟨some ⟨10, 1, hourlyReset 200⟩,
        some (200 + (hourlyReset 200 - 200 + 3600))⟩)) :=
  ⟨⟨by decide, by decide⟩,
   quota_expiry_reset_semantics hourlyReset 10 ⟨10, 5, 100⟩ 1000000000 200 1
     (by decide) (by decide)⟩

/-- C8: ten violations of severity 1 recorded at t = 0 under the moderate
config engage a penalty with `penalty_until = 3600`;
`get_rate_limit_multiplier` returns 0.5 at every t in [0, 3600) and 1.0 at
every t ≥ 3600; and in general the multiplier is the configured one iff the
penalty is active, else 1.0. -/
theorem penalty_scenario_multiplier :
    penaltyAfterTen = ⟨some ⟨10, some 3600, 10, some 0⟩, some 604800⟩ ∧
    (∀ t : ℤ, 0 ≤ t → t < 3600 →
      getRateLimitMultiplier PENALTY_MODERATE penaltyAfterTen t = 1/2) ∧
    (∀ t : ℤ, 3600 ≤ t →
      getRateLimitMultiplier PENALTY_MODERATE penaltyAfterTen t = 1) ∧
    (∀ cfg c now, getRateLimitMultiplier cfg c now =
      if (getPenalty cfg c now).is_active now then cfg.multiplier else 1) := by
  have h1 : penaltyStep ⟨none, none⟩ =
      ⟨some ⟨1, none, 1, some 0⟩, some 604800⟩ := by
    norm_num [penaltyStep, recordViolation, getPenalty, PenaltyCell.get,
      savePenalty, Penalty.is_active, PENALTY_MODERATE]
  have h2 : penaltyStep ⟨some ⟨1, none, 1, some 0⟩, some 604800⟩ =
      ⟨some ⟨2, none, 2, some 0⟩, some 604800⟩ := by
    norm_num [penaltyStep, recordViolation, getPenalty, PenaltyCell.get,
      savePenalty, Penalty.is_active, PENALTY_MODERATE]
  have h3 : penaltyStep ⟨some ⟨2, none, 2, some 0⟩, some 604800⟩ =
      ⟨some ⟨3, none, 3, some 0⟩, some 604800⟩ := by
    norm_num [penaltyStep, recordViolation, getPenalty, PenaltyCell.get,
      savePenalty, Penalty.is_active, PENALTY_MODERATE]
  have h4 : penaltyStep ⟨some ⟨3, none, 3, some 0⟩, some 604800⟩ =
      ⟨some ⟨4, none, 4, some 0⟩, some 604800⟩ := by
    norm_num [penaltyStep, recordViolation, getPenalty, PenaltyCell.get,
      savePenalty, Penalty.is_active, PENALTY_MODERATE]
  have h5 : penaltyStep ⟨some ⟨4, none, 4, some 0⟩, some 604800⟩ =
      ⟨some ⟨5, none, 5, some 0⟩, some 604800⟩ := by
    norm_num [penaltyStep, recordViolation, getPenalty, PenaltyCell.get,
      savePenalty, Penalty.is_active, PENALTY_MODERATE]
  have h6 : penaltyStep ⟨some ⟨5, none, 5, some 0⟩, some 604800⟩ =
      ⟨some ⟨6, none, 6, some 0⟩, some 604800⟩ := by
    norm_num [penaltyStep, recordViolation, getPenalty, PenaltyCell.get,
      savePenalty, Penalty.is_active, PENALTY_MODERATE]
  have h7 : penaltyStep ⟨some ⟨6, none, 6, some 0⟩, some 604800⟩ =
      ⟨some ⟨7, none, 7, some 0⟩, some 604800⟩ := by
    norm_num [penaltyStep, recordViolation, getPenalty, PenaltyCell.get,
      savePenalty, Penalty.is_active, PENALTY_MODERATE]
  have h8 : penaltyStep ⟨some ⟨7, none, 7, some 0⟩, some 604800⟩ =
      ⟨some ⟨8, none, 8, some 0⟩, some 604800⟩ := by
    norm_num [penaltyStep, recordViolation, getPenalty, PenaltyCell.get,
      savePenalty, Penalty.is_active, PENALTY_MODERATE]
  have h9 : penaltyStep ⟨some ⟨8, none, 8, some 0⟩, some 604800⟩ =
      ⟨some ⟨9, none, 9, some 0⟩, some 604800⟩ := by
    norm_num [penaltyStep, recordViolation, getPenalty, PenaltyCell.get,
      savePenalty, Penalty.is_active, PENALTY_MODERATE]
  have h10 : penaltyStep ⟨some ⟨9, none, 9, some 0⟩, some 604800⟩ =
      ⟨some ⟨10, some 3600, 10, some 0⟩, some 604800⟩ := by
    norm_num [penaltyStep, recordViolation, getPenalty, PenaltyCell.get,
      savePenalty, Penalty.is_active, PENALTY_MODERATE]
  have hfin : penaltyAfterTen =
      ⟨some ⟨10, some 3600, 10, some 0⟩, some 604800⟩ := by
    rw [penaltyAfterTen, h1, h2, h3, h4, h5, h6, h7, h8, h9, h10]
  refine ⟨hfin, ?_, ?_, fun cfg c now => rfl⟩
  · intro t ht0 ht1
    rw [hfin]
    have hub : ¬ ((604800 : ℤ) ≤ t) := by omega
    simp only [getRateLimitMultiplier, getPenalty, PenaltyCell.get,
      if_neg hub]
    norm_num [Penalty.is_active, ht1, PENALTY_MODERATE]
  · intro t ht
    rw [hfin]
    by_cases hub : (604800 : ℤ) ≤ t
    · simp only [getRateLimitMultiplier, getPenalty, PenaltyCell.get,
        if_pos hub]
      norm_num [Penalty.is_active]
    · simp only [getRateLimitMultiplier, getPenalty, PenaltyCell.get,
        if_neg hub]
      have : ¬ (t < 3600) := by omega
      norm_num [Penalty.is_active, this]

/-- C8 witness: the scenario theorem's universally quantified parts applied
at t = 100 and t = 7200. -/
theorem penalty_scenario_multiplier_witness :
    ((0 : ℤ) ≤ 100 ∧ (100 : ℤ) < 3600 ∧
      getRateLimitMultiplier PENALTY_MODERATE penaltyAfterTen 100 = 1/2) ∧
    ((3600 : ℤ) ≤ 7200 ∧
      getRateLimitMultiplier PENALTY_MODERATE penaltyAfterTen 7200 = 1) :=
  ⟨⟨by decide, by decide,
    penalty_scenario_multiplier.2.1 100 (by decide) (by decide)⟩,
   ⟨by decide, penalty_scenario_multiplier.2.2.1 7200 (by decide)⟩⟩
